import Mathlib

/-!
Shallow embedding of the form-state coordinator (`src/form/FormService.tsx`)
of the uikernel repository, together with theorems settling the claims of
the specification.

Modelling conventions:
* JavaScript objects (`{[index: string]: any}`) are association lists
  `List (Field × Value)`; lookup takes the first matching key, which agrees
  with JavaScript objects (whose keys are unique).  `Value` is `Int`
  (deep value equality `isEqual` becomes decidable equality on `Int`).
* Asynchronous code is embedded by explicit state passing: each `await`
  suspension point becomes a parameter describing the remote call's result
  and/or the state of the coordinator at the moment the call settles.
* The event emitter / broadcast machinery (`_setState`) has no effect on
  the coordinator's own state; snapshots are computed by `getAll`, so
  broadcasting is not modelled separately.
* `unwrap x` (which throws on `null`) is modelled as `Option.getD`; every
  place it occurs in the source is guarded by loadedness or initialization
  checks, and the theorems below only exercise it under those guards.
-/

namespace FormService

abbrev Field := String

abbrev Value := Int

/-- A JavaScript object: an association list from field names to values. -/
abbrev Obj := List (Field × Value)

/-- Key membership, `hasOwnProperty(obj, field)`. -/
def hasKey (o : Obj) (f : Field) : Bool :=
  (o.lookup f).isSome

/-- `Object.assign({}, a, b)` / `{...a, ...b}`: entries of `b` override
entries of `a`.  Represented as the entries of `a` whose keys do not occur
in `b`, followed by `b`; lookup semantics agree with JavaScript. -/
def objMerge (a b : Obj) : Obj :=
  (a.filter fun p => (b.lookup p.1).isNone) ++ b

/-- `delete obj[field]`. -/
def objDelete (o : Obj) (f : Field) : Obj :=
  o.filter fun p => p.1 != f

/-- Modelled from the spec: `isEqual` (from the missing `common/utils`) is
deep structural equality of plain objects, i.e. key-wise equality of the
two maps, insensitive to key order. -/
def objEq (a b : Obj) : Bool :=
  (a.all fun p => b.lookup p.1 == some p.2) && (b.all fun p => a.lookup p.1 == some p.2)

/-- Modelled from the spec: `ValidationErrors` (from the missing
`common/validation/ValidationErrors`) is a mapping from field name to an
ordered sequence of message strings. -/
structure ValidationErrors where
  errors : List (Field × List String)
deriving DecidableEq

/-- Modelled from the spec: the empty error set (`new ValidationErrors()`). -/
def ValidationErrors.empty : ValidationErrors := ⟨[]⟩

/-- Modelled from the spec: `clear` empties the whole set.  (The source
mutates in place; the model returns the emptied set.) -/
def ValidationErrors.clear (_ : ValidationErrors) : ValidationErrors := ⟨[]⟩

/-- Modelled from the spec: `clearField` removes one field's messages,
dropping the field key. -/
def ValidationErrors.clearField (ve : ValidationErrors) (f : Field) : ValidationErrors :=
  ⟨ve.errors.filter fun p => p.1 != f⟩

/-- Modelled from the spec: `isEmpty`. -/
def ValidationErrors.isEmpty (ve : ValidationErrors) : Bool :=
  ve.errors.isEmpty

/-- Modelled from the spec: `clone` is a deep copy; on a pure value it is
the identity. -/
def ValidationErrors.clone (ve : ValidationErrors) : ValidationErrors := ve

/-- Modelled from the spec: field-message lookup, returning the empty
sequence for an absent field (`getFieldErrorMessages`). -/
def ValidationErrors.getFieldErrorMessages (ve : ValidationErrors) (f : Field) : List String :=
  (ve.errors.lookup f).getD []

/-- Modelled from the spec: `getErrors().keys()` — the field names present
in the set. -/
def ValidationErrors.keys (ve : ValidationErrors) : List Field :=
  ve.errors.map Prod.fst

/-- The coordinator's mutable state (the fields of class `FormService`).
`model : Bool` records whether a backing model has been bound; the model's
behaviour itself is passed as explicit parameters at each suspension
point. -/
structure FormState where
  fields : Option (List Field)
  model : Bool
  showDependentFields : Bool
  submitAll : Bool
  submitting : Bool
  validating : Bool
  changes : Option Obj
  data : Option Obj
  errors : ValidationErrors
  hiddenValidationFields : List Field
  isNotInitialized : Bool
  isSubmitting : Bool
  partialErrorChecking : Bool
  partialErrorCheckingDefault : Bool
  warnings : ValidationErrors
deriving DecidableEq

/-- The constructor `new FormService(fields)`.  Note the source assigns
`_isNotInitialized = false` and then immediately `_isNotInitialized = true`
(lines 53–54); the net effect is `true`. -/
def construct (fields : Option (List Field)) : FormState :=
  { fields := fields
    model := false
    showDependentFields := false
    submitAll := false
    submitting := false
    validating := false
    changes := none
    data := none
    errors := ValidationErrors.empty
    hiddenValidationFields := []
    isNotInitialized := true
    isSubmitting := false
    partialErrorChecking := false
    partialErrorCheckingDefault := false
    warnings := ValidationErrors.empty }

/-- `_isLoaded()`: the record data is not `null`. -/
def _isLoaded (s : FormState) : Bool :=
  s.data.isSome

/-- `_getData()`: `Object.assign({}, this._data, this._changes)`. -/
def _getData (s : FormState) : Obj :=
  objMerge (s.data.getD []) (s.changes.getD [])

/-- `_getChanges()`: the full effective data if `submitAll`, else the raw
changes overlay. -/
def _getChanges (s : FormState) : Obj :=
  if s.submitAll then _getData s else s.changes.getD []

/-- `_isDependentField(field)`: present in the changes overlay with a value
equal to the record-data value. -/
def _isDependentField (s : FormState) (f : Field) : Bool :=
  hasKey (s.changes.getD []) f
    && ((s.changes.getD []).lookup f == (s.data.getD []).lookup f)

/-- The `isFieldPristine` local of `_getDisplayedErrors`: absent from the
changes overlay, or present with a value equal to the record-data value. -/
def isFieldPristine (s : FormState) (f : Field) : Bool :=
  !(hasKey (s.changes.getD []) f)
    || ((s.changes.getD []).lookup f == (s.data.getD []).lookup f)

/-- The suppression condition of `_getDisplayedErrors`: the field is in the
hidden-validation-fields list, or partial-error-checking mode is active and
the field is pristine. -/
def suppressField (s : FormState) (f : Field) : Bool :=
  s.hiddenValidationFields.contains f || (s.partialErrorChecking && isFieldPristine s f)

/-- `_getDisplayedErrors(validationErrors)`: clone the set, then clear every
field of it that satisfies the suppression condition. -/
def _getDisplayedErrors (s : FormState) (validationErrors : ValidationErrors) : ValidationErrors :=
  validationErrors.keys.foldl
    (fun filteredErrors field =>
      if suppressField s field then filteredErrors.clearField field else filteredErrors)
    validationErrors.clone

/-- `_getChangesFields()`: the changes overlay with dependent (pristine)
fields removed. -/
def _getChangesFields (s : FormState) : Obj :=
  (s.changes.getD []).filter fun p => !(_isDependentField s p.1)

/-- The `{value, isChanged, errors, warnings}` record produced by the field
proxy of `_getFields` for one field name.  `value = none` models
`undefined`. -/
structure FieldInfo where
  value : Option Value
  isChanged : Bool
  errors : List String
  warnings : List String
deriving DecidableEq

/-- `_getFields(data, changes, errors, warnings)`: the proxy intercepts
every field-name access and lazily composes the per-field record.  (The
loop pre-populating the declared field list writes through the same proxy
and has no observable effect on reads.) -/
def _getFields (data changes : Obj) (errors warnings : ValidationErrors) :
    Field → FieldInfo :=
  fun fieldName =>
    { value := data.lookup fieldName
      isChanged := hasKey changes fieldName
      errors := errors.getFieldErrorMessages fieldName
      warnings := warnings.getFieldErrorMessages fieldName }

/-- The snapshot returned by `getAll()`. -/
structure Snapshot where
  isLoaded : Bool
  data : Obj
  originalData : Obj
  changes : Obj
  errors : ValidationErrors
  warnings : ValidationErrors
  fields : Field → FieldInfo
  isSubmitting : Bool

/-- `getAll()`. -/
def getAll (s : FormState) : Snapshot :=
  if !(_isLoaded s) then
    { isLoaded := false
      data := []
      originalData := []
      changes := []
      errors := ValidationErrors.empty
      warnings := ValidationErrors.empty
      fields := _getFields [] [] ValidationErrors.empty ValidationErrors.empty
      isSubmitting := false }
  else
    let data := _getData s
    let changes := _getChangesFields s
    let errors := _getDisplayedErrors s s.errors
    let warnings := _getDisplayedErrors s s.warnings
    { isLoaded := true
      data := data
      originalData := s.data.getD []
      changes := changes
      errors := errors
      warnings := warnings
      fields := _getFields data changes errors warnings
      isSubmitting := s.isSubmitting }

/-- Modelled from the spec: `getRecordChanges(model, data, changes, newData)`
from the missing `common/utils` computes the new overlay by combining the
existing overlay with the partial update: for each key of the update the
proposed value is stored even when it equals the record-data value
(pristine-but-touched), and overlay entries for fields not present in the
update are preserved unchanged.  (The `model` argument, used only for
validation-dependency lookup, is not modelled.) -/
def getRecordChanges (data changes newData : Obj) : Obj :=
  let _ := data
  objMerge changes newData

/-- The outcome of one remote validator invocation, as seen from a
sub-validation run: what `validator.isValidRecord(data)` settles with, and
what `getData()` recomputes to at the moment it settles (concurrent edits
included). -/
structure ValidatorRun where
  callResult : Except Nat ValidationErrors
  dataAtCommit : Obj

/-- A validator run whose call succeeds with no errors and whose
recomputed data is empty; used where a run parameter is needed but the
validation path is not exercised. -/
def emptyRun : ValidatorRun :=
  ⟨Except.ok ValidationErrors.empty, []⟩

/-- `_runValidator(validator, getData, output)`: `data` is `getData()` at
entry, `dataAtCommit` is `getData()` recomputed when the call settles, and
`output` is the current result set.  Returns the new result set and the
re-raised failure, if any.  When `data` is empty the result set is cleared
and the remote call is skipped (the call result is never consulted). -/
def runValidator (data : Obj) (callResult : Except Nat ValidationErrors)
    (dataAtCommit : Obj) (output : ValidationErrors) :
    ValidationErrors × Option Nat :=
  if data.isEmpty then (output.clear, none)
  else
    match callResult with
    | Except.error e => (output.clear, some e)
    | Except.ok validErrors =>
        (if objEq data dataAtCommit then validErrors else output, none)

/-- The `{errors, warnings}` record returned by a completed validation
pass: each component is the post-filter set, or `none` when that set is
empty after filtering. -/
structure VFResult where
  errors : Option ValidationErrors
  warnings : Option ValidationErrors
deriving DecidableEq

/-- `_validateForm()` (the throttled body).  Returns the new state, the
pass's result (`Except.ok none` models the guarded `return undefined`),
and whether a validation pass actually ran (a validator was consulted or
the empty-data short-circuit applied).  The errors sub-run validates
`_getChanges`, the warnings sub-run validates `_getData`; both result sets
are committed (each sub-run completes even if the other fails), then a
failure of either is re-raised. -/
def _validateForm (s : FormState) (errRun warnRun : ValidatorRun) :
    FormState × Except Nat (Option VFResult) × Bool :=
  if s.isNotInitialized then (s, Except.ok none, false)
  else
    let n := s.hiddenValidationFields.length
    let s1 := {s with validating := true}
    let errPair := runValidator (_getChanges s1) errRun.callResult errRun.dataAtCommit s1.errors
    let warnPair := runValidator (_getData s1) warnRun.callResult warnRun.dataAtCommit s1.warnings
    let s2 := {s1 with
      errors := errPair.1
      warnings := warnPair.1
      validating := false
      hiddenValidationFields := s1.hiddenValidationFields.drop n}
    match errPair.2.orElse (fun _ => warnPair.2) with
    | some e => (s2, Except.error e, true)
    | none =>
        let displayedErrors := _getDisplayedErrors s2 s2.errors
        let displayedWarnings := _getDisplayedErrors s2 s2.warnings
        (s2,
         Except.ok (some
           { errors := if displayedErrors.isEmpty then none else some displayedErrors
             warnings := if displayedWarnings.isEmpty then none else some displayedWarnings }),
         true)

/-- The public `validateForm()`.  Modelled from the spec where the
`throttle` utility is concerned: the throttled `_validateForm` either runs
its body, or rejects the superseded invocation with a `ThrottleError`
(`cancelled = true`) without running the body; the `catch` turns a
`ThrottleError` into a normal (undefined) resolution and re-raises
anything else unchanged. -/
def validateForm (s : FormState) (cancelled : Bool) (errRun warnRun : ValidatorRun) :
    FormState × Except Nat (Option VFResult) × Bool :=
  if cancelled then (s, Except.ok none, false)
  else _validateForm s errRun warnRun

/-- `set(data, validate)`.  The `validate` branch awaits the public
`validateForm` (whose `ThrottleError` handling is described there; the
redundant second `ThrottleError` catch inside `set` can never fire because
`validateForm` already suppressed it). -/
def set (s : FormState) (data : Obj) (validate : Bool) (cancelled : Bool)
    (errRun warnRun : ValidatorRun) : FormState × Except Nat Unit :=
  if !(_isLoaded s) then (s, Except.ok ())
  else
    let s1 := {s with
      changes := some (getRecordChanges (s.data.getD []) (s.changes.getD []) data)}
    if validate then
      let r := validateForm s1 cancelled errRun warnRun
      (r.1, r.2.1.map fun _ => ())
    else (s1, Except.ok ())

/-- `clearValidation(fields)`: append the field (or fields) to the
hidden-validation-fields list. -/
def clearValidation (s : FormState) (fields : List Field) : FormState :=
  if s.isNotInitialized then s
  else {s with hiddenValidationFields := s.hiddenValidationFields ++ fields}

/-- `clearFieldChanges(field)`. -/
def clearFieldChanges (s : FormState) (field : Field) : FormState :=
  if s.isNotInitialized then s
  else {s with
    errors := s.errors.clearField field
    warnings := s.warnings.clearField field
    changes := some (objDelete (s.changes.getD []) field)}

/-- `clearChanges()`. -/
def clearChanges (s : FormState) : FormState :=
  if s.isNotInitialized then s
  else {s with
    errors := s.errors.clear
    warnings := s.warnings.clear
    changes := some []
    partialErrorChecking := s.partialErrorCheckingDefault}

/-- `setPartialErrorChecking(value)`. -/
def setPartialErrorChecking (s : FormState) (value : Bool) : FormState :=
  {s with partialErrorChecking := value}

/-- `_onModelChange(changes)`: merge the pushed partial mapping into the
record data. -/
def _onModelChange (s : FormState) (changes : Obj) : FormState :=
  {s with data := some (objMerge (s.data.getD []) changes)}

/-- What `model.submit(changes)` settles with. -/
inductive SubmitResult where
  | ok (payload : Value)
  | validationFail (ve : ValidationErrors)
  | fatal (e : Nat)
deriving DecidableEq

/-- What a `submit()` call returns or throws to its caller. -/
inductive SubmitRet where
  | noop
  | payload (v : Value)
  | threwValidation (ve : ValidationErrors)
  | threwFatal (e : Nat)
deriving DecidableEq

/-- `submit()`.  `inter` is the interleaved execution that happens while
`model.submit` is in flight: it transforms the state as broadcast just
after `isSubmitting` was raised into the state observed when the promise
settles. -/
def submit (s : FormState) (result : SubmitResult) (inter : FormState → FormState) :
    FormState × SubmitRet :=
  if s.isNotInitialized || s.isSubmitting then (s, SubmitRet.noop)
  else
    let changes := _getChanges s
    let n := s.hiddenValidationFields.length
    let mid := inter {s with isSubmitting := true, partialErrorChecking := false}
    match result with
    | SubmitResult.fatal e =>
        ({mid with isSubmitting := false}, SubmitRet.threwFatal e)
    | SubmitResult.ok payload =>
        let s2 := {mid with isSubmitting := false}
        let s3 :=
          if objEq changes (_getChanges s2) then
            {s2 with errors := ValidationErrors.empty, changes := some []}
          else s2
        ({s3 with hiddenValidationFields := s3.hiddenValidationFields.drop n},
         SubmitRet.payload payload)
    | SubmitResult.validationFail ve =>
        let s2 := {mid with isSubmitting := false}
        let s3 :=
          if objEq changes (_getChanges s2) then {s2 with errors := ve} else s2
        ({s3 with hiddenValidationFields := s3.hiddenValidationFields.drop n},
         SubmitRet.threwValidation ve)

/-- `submitData(data)`: `set` then `submit`. -/
def submitData (s : FormState) (data : Obj) (result : SubmitResult)
    (inter : FormState → FormState) : FormState × SubmitRet :=
  if s.isNotInitialized then (s, SubmitRet.noop)
  else
    let s1 := (set s data false false emptyRun emptyRun).1
    submit s1 result inter

/-- The `settings` argument of `init`.  `fields = none` models a settings
object without a `fields` property (`hasOwnProperty(settings, 'fields')`
fails). -/
structure InitSettings where
  modelPresent : Bool
  fields : Option (List Field)
  data : Option Obj
  changes : Option Obj
  submitAll : Bool
  partialErrorChecking : Bool
  showDependentFields : Bool
deriving DecidableEq

/-- Failures `init` can raise. -/
inductive InitError where
  | noModel
  | validationFailure (e : Nat)
deriving DecidableEq

/-- `init(settings)`.  `fetched` is what `model.getData(fields)` resolves
with when no preset data is supplied.  Returns the final state, whether a
validation pass ran by the time `init` resolved, and the failure raised
(if any). -/
def init (s : FormState) (settings : InitSettings) (fetched : Obj)
    (errRun warnRun : ValidatorRun) : FormState × Bool × Option InitError :=
  if !settings.modelPresent then (s, false, some InitError.noModel)
  else
    let s1 := {s with
      changes := some (settings.changes.getD [])
      data := settings.data
      partialErrorChecking := settings.partialErrorChecking
      partialErrorCheckingDefault := settings.partialErrorChecking
      model := true
      showDependentFields := settings.showDependentFields
      submitAll := settings.submitAll
      fields := match settings.fields with
        | some fs => some fs
        | none => s.fields}
    let s2 := if s1.data.isNone then {s1 with data := some fetched} else s1
    if !settings.partialErrorChecking then
      let r := validateForm s2 false errRun warnRun
      (r.1, r.2.2,
       match r.2.1 with
       | Except.error e => some (InitError.validationFailure e)
       | Except.ok _ => none)
    else (s2, false, none)

/-- One invocation of a public operation, together with the environment it
observes at its suspension points (remote-call results, interleaved
executions). -/
inductive Op where
  | initOp (settings : InitSettings) (fetched : Obj) (errRun warnRun : ValidatorRun)
  | setOp (data : Obj) (validate cancelled : Bool) (errRun warnRun : ValidatorRun)
  | clearValidationOp (fields : List Field)
  | clearFieldChangesOp (field : Field)
  | clearChangesOp
  | setPartialErrorCheckingOp (value : Bool)
  | submitOp (result : SubmitResult) (inter : FormState → FormState)
  | submitDataOp (data : Obj) (result : SubmitResult) (inter : FormState → FormState)
  | validateFormOp (cancelled : Bool) (errRun warnRun : ValidatorRun)
  | onModelChangeOp (changes : Obj)

/-- The state transformation of one public operation. -/
def applyOp (op : Op) (s : FormState) : FormState :=
  match op with
  | Op.initOp settings fetched errRun warnRun => (init s settings fetched errRun warnRun).1
  | Op.setOp data validate cancelled errRun warnRun =>
      (set s data validate cancelled errRun warnRun).1
  | Op.clearValidationOp fields => clearValidation s fields
  | Op.clearFieldChangesOp field => clearFieldChanges s field
  | Op.clearChangesOp => clearChanges s
  | Op.setPartialErrorCheckingOp value => setPartialErrorChecking s value
  | Op.submitOp result inter => (submit s result inter).1
  | Op.submitDataOp data result inter => (submitData s data result inter).1
  | Op.validateFormOp cancelled errRun warnRun => (validateForm s cancelled errRun warnRun).1
  | Op.onModelChangeOp changes => _onModelChange s changes

/-- The state reached from a freshly constructed coordinator by a sequence
of public operations. -/
def run (fields : Option (List Field)) (ops : List Op) : FormState :=
  ops.foldl (fun s op => applyOp op s) (construct fields)

/-- A loaded coordinator state with the given record data and changes
overlay (ready for the pure snapshot accessors). -/
def mkLoaded (d c : Obj) : FormState :=
  { construct none with isNotInitialized := false, data := some d, changes := some c }

/-- Settings of the C1 scenario: preset `data = {x: 1}`, no preset changes,
`partialErrorChecking = false`. -/
def c1Settings : InitSettings :=
  { modelPresent := true
    fields := some ["x"]
    data := some [("x", 1)]
    changes := none
    submitAll := false
    partialErrorChecking := false
    showDependentFields := false }

/-- The backing model's record-validation capability for the C1 scenario:
it would flag field `x` as invalid. -/
def c1ErrRun : ValidatorRun := ⟨Except.ok ⟨[("x", ["invalid"])]⟩, []⟩

/-- The advisory validator for the C1 scenario. -/
def c1WarnRun : ValidatorRun := ⟨Except.ok ⟨[("x", ["warn"])]⟩, [("x", 1)]⟩

/-- The C3 scenario's state at the `submit()` call: record `{a: 0}`,
changes overlay `{a: 1}`, a stale error for `a` in the error set. -/
def c3State : FormState :=
  { construct none with
      isNotInitialized := false
      data := some [("a", 0)]
      changes := some [("a", 1)]
      errors := ⟨[("a", ["stale"])]⟩ }

/-- The C3 scenario's interleaved execution while `model.submit` is in
flight: `set({a: 2})`. -/
def c3Inter : FormState → FormState :=
  fun t => (set t [("a", 2)] false false emptyRun emptyRun).1

/-! ### Lemmas about association-list lookup -/

lemma lookup_append {β : Type} (l1 l2 : List (Field × β)) (f : Field) :
    (l1 ++ l2).lookup f = ((l1.lookup f).orElse fun _ => l2.lookup f) := by
  induction l1 with
  | nil => cases h : l2.lookup f <;> simp [List.lookup, Option.orElse, h]
  | cons p l1 ih =>
    cases hp : (f == p.1) <;> simp [List.lookup, hp, ih, Option.orElse]

lemma lookup_filter_key {β : Type} (Q : Field → Bool) (l : List (Field × β)) (f : Field) :
    (l.filter fun p => Q p.1).lookup f = if Q f then l.lookup f else none := by
  induction l with
  | nil => simp [List.lookup]
  | cons p l ih =>
    cases hq : Q p.1 <;> cases hp : (f == p.1) <;>
      simp [List.filter_cons, hq, List.lookup, hp, ih] <;>
      rw [eq_of_beq hp] <;> simp [hq]

lemma lookup_objMerge (a b : Obj) (f : Field) :
    (objMerge a b).lookup f = ((b.lookup f).orElse fun _ => a.lookup f) := by
  unfold objMerge
  rw [lookup_append,
    show (fun p : Field × Value => (b.lookup p.1).isNone)
      = (fun p => (fun k => (b.lookup k).isNone) p.1) from rfl,
    lookup_filter_key (fun k => (b.lookup k).isNone) a f]
  cases hb : b.lookup f
  · simp only [hb, Option.isNone_none, if_true]
    cases a.lookup f <;> rfl
  · simp [hb, Option.orElse]

lemma validateFormBody_keeps_flag (s : FormState) (errRun warnRun : ValidatorRun) :
    ((_validateForm s errRun warnRun).1).isNotInitialized = s.isNotInitialized := by
  unfold _validateForm
  cases h : s.isNotInitialized
  · simp only [h, Bool.false_eq_true, if_false]
    split <;> rfl
  · simp [h]

lemma validateForm_keeps_flag (s : FormState) (cancelled : Bool) (errRun warnRun : ValidatorRun) :
    ((validateForm s cancelled errRun warnRun).1).isNotInitialized = s.isNotInitialized := by
  unfold validateForm
  cases cancelled
  · simpa using validateFormBody_keeps_flag s errRun warnRun
  · simp

lemma set_keeps_flag (s : FormState) (data : Obj) (validate cancelled : Bool)
    (errRun warnRun : ValidatorRun) :
    ((set s data validate cancelled errRun warnRun).1).isNotInitialized = s.isNotInitialized := by
  unfold set
  cases hl : _isLoaded s
  · simp
  · cases validate <;> simp [validateForm_keeps_flag]

lemma init_keeps_flag (s : FormState) (settings : InitSettings) (fetched : Obj)
    (errRun warnRun : ValidatorRun) :
    ((init s settings fetched errRun warnRun).1).isNotInitialized = s.isNotInitialized := by
  unfold init
  cases hm : settings.modelPresent
  · simp
  · cases hp : settings.partialErrorChecking <;>
      cases hd : settings.data <;>
      simp [hp, hd, validateForm_keeps_flag]

lemma applyOp_keeps_flag (op : Op) (s : FormState) (h : s.isNotInitialized = true) :
    (applyOp op s).isNotInitialized = true := by
  cases op with
  | initOp settings fetched errRun warnRun =>
      show ((init s settings fetched errRun warnRun).1).isNotInitialized = true
      rw [init_keeps_flag]
      exact h
  | setOp data validate cancelled errRun warnRun =>
      show ((set s data validate cancelled errRun warnRun).1).isNotInitialized = true
      rw [set_keeps_flag]
      exact h
  | clearValidationOp fields =>
      show (clearValidation s fields).isNotInitialized = true
      simp [clearValidation, h]
  | clearFieldChangesOp field =>
      show (clearFieldChanges s field).isNotInitialized = true
      simp [clearFieldChanges, h]
  | clearChangesOp =>
      show (clearChanges s).isNotInitialized = true
      simp [clearChanges, h]
  | setPartialErrorCheckingOp value => exact h
  | submitOp result inter =>
      show ((submit s result inter).1).isNotInitialized = true
      simp [submit, h]
  | submitDataOp data result inter =>
      show ((submitData s data result inter).1).isNotInitialized = true
      simp [submitData, h]
  | validateFormOp cancelled errRun warnRun =>
      show ((validateForm s cancelled errRun warnRun).1).isNotInitialized = true
      rw [validateForm_keeps_flag]
      exact h
  | onModelChangeOp changes => exact h

lemma run_flag (fields : Option (List Field)) (ops : List Op) :
    (run fields ops).isNotInitialized = true := by
  unfold run
  have h : ∀ (l : List Op) (s : FormState), s.isNotInitialized = true →
      (l.foldl (fun t op => applyOp op t) s).isNotInitialized = true := by
    intro l
    induction l with
    | nil => intro s hs; simpa using hs
    | cons op l ih =>
        intro s hs
        simp only [List.foldl_cons]
        exact ih _ (applyOp_keeps_flag op s hs)
  exact h ops (construct fields) rfl

lemma getChanges_ignores_isSubmitting (t : FormState) (b : Bool) :
    _getChanges {t with isSubmitting := b} = _getChanges t := rfl

/-! ### Claim theorems -/

/-- C2: in every state reachable by any sequence of public operations
(including a completed `init`), `_isNotInitialized` is still `true`, and
consequently `clearValidation`, `clearFieldChanges`, `clearChanges`,
`submit`, `submitData` and the internal `_validateForm` all return
immediately, leave the state unchanged, and never consult the backing
model (their outcome is independent of every remote result and
interleaving parameter). -/
theorem claimC2_isNotInitialized_invariant (flds : Option (List Field)) (ops : List Op)
    (fs : List Field) (f : Field) (d : Obj) (r : SubmitResult)
    (inter : FormState → FormState) (errRun warnRun : ValidatorRun) :
    (run flds ops).isNotInitialized = true
    ∧ clearValidation (run flds ops) fs = run flds ops
    ∧ clearFieldChanges (run flds ops) f = run flds ops
    ∧ clearChanges (run flds ops) = run flds ops
    ∧ submit (run flds ops) r inter = (run flds ops, SubmitRet.noop)
    ∧ submitData (run flds ops) d r inter = (run flds ops, SubmitRet.noop)
    ∧ _validateForm (run flds ops) errRun warnRun = (run flds ops, Except.ok none, false) := by
  have h := run_flag flds ops
  refine ⟨h, ?_, ?_, ?_, ?_, ?_, ?_⟩ <;>
    simp [clearValidation, clearFieldChanges, clearChanges, submit, submitData,
      _validateForm, h]

/-- C1: the scenario `init` with `data = {x: 1}`, no preset changes and
`partialErrorChecking = false`, against a model whose record-validation
capability would flag `x`.  Contrary to the claim, by the time `init`
resolves no validation pass has run (neither validator was consulted nor
the empty-data short-circuit applied — the pass-ran flag is `false`), and
the snapshot returned by `getAll` shows no errors and no warnings: the
`_isNotInitialized` guard, never cleared by `init`, makes `_validateForm`
return immediately. -/
theorem claimC1_init_runs_no_validation_pass :
    (init (construct none) c1Settings [] c1ErrRun c1WarnRun).2.1 = false
    ∧ (init (construct none) c1Settings [] c1ErrRun c1WarnRun).2.2 = none
    ∧ (getAll (init (construct none) c1Settings [] c1ErrRun c1WarnRun).1).isLoaded = true
    ∧ (getAll (init (construct none) c1Settings [] c1ErrRun c1WarnRun).1).errors
        = ValidationErrors.empty
    ∧ (getAll (init (construct none) c1Settings [] c1ErrRun c1WarnRun).1).warnings
        = ValidationErrors.empty := by
  refine ⟨rfl, rfl, rfl, rfl, rfl⟩

/-- C4: in every loaded state, for every field, the effective data
returned by `_getData` is the record data shallowly overlaid with the
changes overlay: `effectiveData[f] = changes[f]` if present, else
`recordData[f]`. -/
theorem claimC4_effective_data (s : FormState) (d c : Obj) (f : Field)
    (hd : s.data = some d) (hc : s.changes = some c) :
    (_getData s).lookup f = ((c.lookup f).orElse fun _ => d.lookup f) := by
  unfold _getData
  rw [hd, hc]
  exact lookup_objMerge d c f

/-- Witness for C4 at a concrete loaded state: the overlay value wins for
`a`, the record value shows through for `b`. -/
theorem claimC4_witness :
    (_getData (mkLoaded [("a", 0), ("b", 3)] [("a", 5)])).lookup "a" = some 5
    ∧ (_getData (mkLoaded [("a", 0), ("b", 3)] [("a", 5)])).lookup "b" = some 3 := by
  refine ⟨?_, ?_⟩
  · exact (claimC4_effective_data (mkLoaded [("a", 0), ("b", 3)] [("a", 5)])
      [("a", 0), ("b", 3)] [("a", 5)] "a" rfl rfl).trans (by decide)
  · exact (claimC4_effective_data (mkLoaded [("a", 0), ("b", 3)] [("a", 5)])
      [("a", 0), ("b", 3)] [("a", 5)] "b" rfl rfl).trans (by decide)

/-- C6: for one sub-validation run (`_runValidator`): empty built data
clears the result set without consulting the remote call's outcome; a
successful call is committed exactly when the recomputed data equals the
data the call started with, and is discarded (the result set is kept)
otherwise; a failed call clears the result set and re-raises the
failure. -/
theorem claimC6_runValidator (dEmpty dFull d1 : Obj) (cur ve : ValidationErrors) (e : Nat)
    (r : Except Nat ValidationErrors)
    (hEmpty : dEmpty.isEmpty = true) (hFull : dFull.isEmpty = false) :
    runValidator dEmpty r d1 cur = (ValidationErrors.empty, none)
    ∧ runValidator dFull (Except.ok ve) d1 cur
        = (if objEq dFull d1 then ve else cur, none)
    ∧ runValidator dFull (Except.error e) d1 cur = (ValidationErrors.empty, some e) := by
  refine ⟨?_, ?_, ?_⟩ <;>
    simp [runValidator, hEmpty, hFull, ValidationErrors.clear, ValidationErrors.empty]

/-- Witness for C6: empty data clears (the pending call result `ok {z:_}`
is ignored); with data `{a:1}` a successful result commits when the
recomputed data is still `{a:1}` and is discarded when it is `{a:2}`; a
failure clears and re-raises. -/
theorem claimC6_witness :
    runValidator [] (Except.ok ⟨[("z", ["q"])]⟩) [("a", 1)] ⟨[("b", ["old"])]⟩
        = (ValidationErrors.empty, none)
    ∧ runValidator [("a", 1)] (Except.ok ⟨[("a", ["bad"])]⟩) [("a", 1)] ⟨[("b", ["old"])]⟩
        = (⟨[("a", ["bad"])]⟩, none)
    ∧ runValidator [("a", 1)] (Except.ok ⟨[("a", ["bad"])]⟩) [("a", 2)] ⟨[("b", ["old"])]⟩
        = (⟨[("b", ["old"])]⟩, none)
    ∧ runValidator [("a", 1)] (Except.error 3) [("a", 1)] ⟨[("b", ["old"])]⟩
        = (ValidationErrors.empty, some 3) := by
  have h1 := claimC6_runValidator [] [("a", 1)] [("a", 1)] ⟨[("b", ["old"])]⟩
    ⟨[("a", ["bad"])]⟩ 3 (Except.ok ⟨[("z", ["q"])]⟩) rfl rfl
  have h2 := claimC6_runValidator [] [("a", 1)] [("a", 2)] ⟨[("b", ["old"])]⟩
    ⟨[("a", ["bad"])]⟩ 3 (Except.ok ⟨[("z", ["q"])]⟩) rfl rfl
  exact ⟨h1.1, h1.2.1.trans (by decide), h2.2.1.trans (by decide), h1.2.2⟩

/-- C9: `set(partialUpdate)` replaces the overlay by the record-changes
combination, under which every update key is stored — even when its value
equals the record-data value (the right-hand side does not consult the
record data) — and overlay entries for keys not in the update are
preserved; while the snapshot's `changes` (`_getChangesFields`) excludes
exactly the overlay entries whose value equals the record-data value. -/
theorem claimC9_pristine_but_touched (d c upd : Obj) (f : Field) :
    (set (mkLoaded d c) upd false false emptyRun emptyRun).1.changes
        = some (getRecordChanges d c upd)
    ∧ (getRecordChanges d c upd).lookup f = ((upd.lookup f).orElse fun _ => c.lookup f)
    ∧ (_getChangesFields (mkLoaded d c)).lookup f
        = (match c.lookup f with
           | some w => if ((some w : Option Value) == d.lookup f) then none else some w
           | none => none) := by
  refine ⟨rfl, lookup_objMerge c upd f, ?_⟩
  unfold _getChangesFields
  rw [show (fun p : Field × Value => !(_isDependentField (mkLoaded d c) p.1))
      = (fun p => (fun k => !(_isDependentField (mkLoaded d c) k)) p.1) from rfl,
    lookup_filter_key (fun k => !(_isDependentField (mkLoaded d c) k))]
  show (if !(_isDependentField (mkLoaded d c) f) then c.lookup f else none) = _
  unfold _isDependentField hasKey
  show (if !((c.lookup f).isSome && (c.lookup f == d.lookup f)) then c.lookup f else none) = _
  cases hc : c.lookup f with
  | none => simp
  | some w =>
      cases hw : ((some w : Option Value) == d.lookup f) <;> simp [hw]

/-- C10: whenever `getAll()` is called before the record data is loaded,
the snapshot has `isLoaded = false`, empty data, original data, changes,
error and warning sets, `isSubmitting = false`, and every field of the
per-field view yields `value = undefined, isChanged = false, errors = [],
warnings = []`. -/
theorem claimC10_getAll_before_load (s : FormState) (f : Field) (h : s.data = none) :
    (getAll s).isLoaded = false
    ∧ (getAll s).data = []
    ∧ (getAll s).originalData = []
    ∧ (getAll s).changes = []
    ∧ (getAll s).errors = ValidationErrors.empty
    ∧ (getAll s).warnings = ValidationErrors.empty
    ∧ (getAll s).isSubmitting = false
    ∧ (getAll s).fields f
        = { value := none, isChanged := false, errors := [], warnings := [] } := by
  have hl : _isLoaded s = false := by simp [_isLoaded, h]
  refine ⟨?_, ?_, ?_, ?_, ?_, ?_, ?_, ?_⟩ <;>
    simp [getAll, hl, _getFields, hasKey, ValidationErrors.getFieldErrorMessages,
      ValidationErrors.empty, List.lookup]

/-- Witness for C10: a freshly constructed coordinator and field `x`. -/
theorem claimC10_witness :
    (getAll (construct none)).isLoaded = false
    ∧ (getAll (construct none)).data = []
    ∧ (getAll (construct none)).originalData = []
    ∧ (getAll (construct none)).changes = []
    ∧ (getAll (construct none)).errors = ValidationErrors.empty
    ∧ (getAll (construct none)).warnings = ValidationErrors.empty
    ∧ (getAll (construct none)).isSubmitting = false
    ∧ (getAll (construct none)).fields "x"
        = { value := none, isChanged := false, errors := [], warnings := [] } :=
  claimC10_getAll_before_load (construct none) "x" rfl

/-- C7: when `submit()` passes its guard and the backing-store call rejects
with a non-validation failure, the coordinator resets `isSubmitting` to
`false` and re-raises the failure, leaving the state as the interleaved
execution left it; in particular with no interleaving the changes overlay
and the error set are exactly as they were before the call. -/
theorem claimC7_fatal_submit_failure (s : FormState) (e : Nat)
    (inter : FormState → FormState)
    (h1 : s.isNotInitialized = false) (h2 : s.isSubmitting = false) :
    submit s (SubmitResult.fatal e) inter
      = ({inter {s with isSubmitting := true, partialErrorChecking := false} with
            isSubmitting := false},
         SubmitRet.threwFatal e)
    ∧ (submit s (SubmitResult.fatal e) id).1.changes = s.changes
    ∧ (submit s (SubmitResult.fatal e) id).1.errors = s.errors
    ∧ (submit s (SubmitResult.fatal e) id).1.warnings = s.warnings
    ∧ (submit s (SubmitResult.fatal e) id).1.isSubmitting = false
    ∧ (submit s (SubmitResult.fatal e) id).2 = SubmitRet.threwFatal e := by
  have hg : (s.isNotInitialized || s.isSubmitting) = false := by
    rw [h1, h2]
    rfl
  refine ⟨?_, ?_, ?_, ?_, ?_, ?_⟩ <;> simp [submit, hg]

/-- Witness for C7: a loaded submittable state with pending changes and a
stale error; the fatal failure is re-raised with overlay and errors
untouched. -/
theorem claimC7_witness :
    (submit { mkLoaded [("a", 0)] [("a", 1)] with errors := ⟨[("a", ["old"])]⟩ }
        (SubmitResult.fatal 7) id).1.changes = some [("a", 1)]
    ∧ (submit { mkLoaded [("a", 0)] [("a", 1)] with errors := ⟨[("a", ["old"])]⟩ }
        (SubmitResult.fatal 7) id).1.errors = ⟨[("a", ["old"])]⟩
    ∧ (submit { mkLoaded [("a", 0)] [("a", 1)] with errors := ⟨[("a", ["old"])]⟩ }
        (SubmitResult.fatal 7) id).1.isSubmitting = false
    ∧ (submit { mkLoaded [("a", 0)] [("a", 1)] with errors := ⟨[("a", ["old"])]⟩ }
        (SubmitResult.fatal 7) id).2 = SubmitRet.threwFatal 7 := by
  have h := claimC7_fatal_submit_failure
    { mkLoaded [("a", 0)] [("a", 1)] with errors := ⟨[("a", ["old"])]⟩ } 7 id rfl rfl
  exact ⟨h.2.1, h.2.2.1, h.2.2.2.2.1, h.2.2.2.2.2⟩

/-- C3: when `submit()` passes its guard and the backing-store call
settles with success or a validation-kind failure, the outcome is
committed exactly when the changes snapshot taken before the request
equals the changes recomputed when the request settles: on success both
the error set and the whole overlay are cleared, on a validation failure
the returned error set is installed; when they differ neither the error
set nor the overlay is modified.  The call settles with the payload
(success) or re-raises the validation error set. -/
theorem claimC3_submit_reconciliation (s : FormState) (payload : Value)
    (ve : ValidationErrors) (interE interN : FormState → FormState)
    (h1 : s.isNotInitialized = false) (h2 : s.isSubmitting = false)
    (hE : objEq (_getChanges s)
        (_getChanges (interE {s with isSubmitting := true, partialErrorChecking := false}))
      = true)
    (hN : objEq (_getChanges s)
        (_getChanges (interN {s with isSubmitting := true, partialErrorChecking := false}))
      = false) :
    ((submit s (SubmitResult.ok payload) interE).1.changes = some []
      ∧ (submit s (SubmitResult.ok payload) interE).1.errors = ValidationErrors.empty
      ∧ (submit s (SubmitResult.validationFail ve) interE).1.errors = ve
      ∧ (submit s (SubmitResult.validationFail ve) interE).1.changes
          = (interE {s with isSubmitting := true, partialErrorChecking := false}).changes)
    ∧ ((submit s (SubmitResult.ok payload) interN).1.changes
          = (interN {s with isSubmitting := true, partialErrorChecking := false}).changes
      ∧ (submit s (SubmitResult.ok payload) interN).1.errors
          = (interN {s with isSubmitting := true, partialErrorChecking := false}).errors
      ∧ (submit s (SubmitResult.validationFail ve) interN).1.changes
          = (interN {s with isSubmitting := true, partialErrorChecking := false}).changes
      ∧ (submit s (SubmitResult.validationFail ve) interN).1.errors
          = (interN {s with isSubmitting := true, partialErrorChecking := false}).errors)
    ∧ (submit s (SubmitResult.ok payload) interN).2 = SubmitRet.payload payload
    ∧ (submit s (SubmitResult.validationFail ve) interN).2 = SubmitRet.threwValidation ve := by
  have hg : (s.isNotInitialized || s.isSubmitting) = false := by
    rw [h1, h2]
    rfl
  refine ⟨⟨?_, ?_, ?_, ?_⟩, ⟨?_, ?_, ?_, ?_⟩, ?_, ?_⟩ <;>
    simp [submit, hg, getChanges_ignores_isSubmitting, hE, hN]

/-- Witness for C3 (the claim's scenario): record `{a: 0}`, overlay
`{a: 1}`, a stale error set; `set({a: 2})` interleaves while the submit of
`{a: 1}` is in flight and the submit resolves successfully — the overlay
still contains `{a: 2}` and the stale error survives untouched (no stale
success-clearing); with no interleaving the same successful submit clears
overlay and errors. -/
theorem claimC3_witness :
    (submit c3State (SubmitResult.ok 9) c3Inter).1.changes = some [("a", 2)]
    ∧ (submit c3State (SubmitResult.ok 9) c3Inter).1.errors = ⟨[("a", ["stale"])]⟩
    ∧ (submit c3State (SubmitResult.ok 9) id).1.changes = some []
    ∧ (submit c3State (SubmitResult.ok 9) id).1.errors = ValidationErrors.empty := by
  have h := claimC3_submit_reconciliation c3State 9 ValidationErrors.empty id c3Inter
    rfl rfl (by decide) (by decide)
  refine ⟨h.2.1.1.trans (by decide), h.2.1.2.1.trans (by decide), h.1.1, h.1.2.1⟩

/-- C8: the public `validateForm` (and `set` with `validate = true`)
resolves without error when the internal throttled validation pass is
rejected with the throttle-cancellation signal, while any other failure of
the pass propagates unchanged to the caller. -/
theorem claimC8_throttle_cancellation_suppressed (s t : FormState)
    (errRun warnRun : ValidatorRun) (upd : Obj) (e1 e2 : Nat)
    (hs : (_validateForm s errRun warnRun).2.1 = Except.error e1)
    (hL : _isLoaded t = true)
    (ht : (_validateForm
        {t with changes := some (getRecordChanges (t.data.getD []) (t.changes.getD []) upd)}
        errRun warnRun).2.1 = Except.error e2) :
    validateForm s true errRun warnRun = (s, Except.ok none, false)
    ∧ (validateForm s false errRun warnRun).2.1 = Except.error e1
    ∧ (set t upd true true errRun warnRun).2 = Except.ok ()
    ∧ (set t upd true false errRun warnRun).2 = Except.error e2 := by
  refine ⟨rfl, ?_, ?_, ?_⟩
  · simp [validateForm, hs]
  · simp only [set, hL, validateForm, if_true, Bool.not_true, Bool.false_eq_true, if_false]
    rfl
  · simp only [set, hL, validateForm, if_true, Bool.not_true, Bool.false_eq_true, if_false]
    rw [ht]
    rfl

/-- Witness for C8: the backing validator rejects with the non-throttle
failure `5`; a throttle-cancelled invocation resolves without error while
an executed one propagates `5`, both through `validateForm` and through
`set(..., validate = true)`. -/
theorem claimC8_witness :
    validateForm (mkLoaded [("a", 0)] [("a", 1)]) true ⟨Except.error 5, []⟩ emptyRun
      = (mkLoaded [("a", 0)] [("a", 1)], Except.ok none, false)
    ∧ (validateForm (mkLoaded [("a", 0)] [("a", 1)]) false ⟨Except.error 5, []⟩ emptyRun).2.1
      = Except.error 5
    ∧ (set (mkLoaded [("b", 0)] []) [("b", 2)] true true ⟨Except.error 5, []⟩ emptyRun).2
      = Except.ok ()
    ∧ (set (mkLoaded [("b", 0)] []) [("b", 2)] true false ⟨Except.error 5, []⟩ emptyRun).2
      = Except.error 5 :=
  claimC8_throttle_cancellation_suppressed
    (mkLoaded [("a", 0)] [("a", 1)]) (mkLoaded [("b", 0)] [])
    ⟨Except.error 5, []⟩ emptyRun [("b", 2)] 5 5 rfl rfl rfl

end FormService
